import Mathlib

/-!
Verification development for the ha-thermoworks-cloud integration.

Shallow embedding of `custom_components/thermoworks_cloud`:
  * `models.py` — raw-record validation (`from_api_device`, `from_api_channel`),
    identifier resolution (`get_identifier`), capability tests
    (`DeviceWithBattery` / `DeviceWithWifi`);
  * `coordinator.py` — the refresh cycle `async_update_data` (auth, user fetch,
    device-list fetch, per-device channel discovery, snapshot construction) and
    the lookup accessors `get_device_by_id` / `get_device_channel_by_id`;
  * `sensor.py` — the entity-setup pass `async_setup_entry`.

Numeric payloads (battery percent, wifi strength, channel value) are Python
floats that the code under verification never computes with — it only tests
them for presence and copies them — so they are modelled as `Int`.
An attribute that is absent (`hasattr` false) and an attribute equal to `None`
are treated identically by `get_missing_attributes`, so a raw record models
both as `Option.none`.
-/

namespace ThermoworksCloud

/-- A raw device record as returned by the cloud API, before validation.
Field set and order follow the type hints of `BaseDevice` in `models.py`:
`serial` is the only non-`Optional` hint; every other field is `Optional`. -/
structure RawDevice where
  serial : Option String
  device_id : Option String
  label : Option String
  device_name : Option String
  firmware : Option String
  battery : Option Int
  battery_state : Option String
  wifi_strength : Option Int
  deriving Repr, DecidableEq

/-- A raw channel record as returned by the cloud API, before validation.
Field set and order follow the type hints of `ThermoworksChannel` in
`models.py`: `number`, `value`, `units` are non-`Optional`; `status` and
`label` are `Optional`. -/
structure RawChannel where
  number : Option String
  value : Option Int
  units : Option String
  status : Option String
  label : Option String
  deriving Repr, DecidableEq

/-- A validated device (`ThermoworksDevice` in `models.py`): `serial` is
required, everything else optional. -/
structure ThermoworksDevice where
  serial : String
  device_id : Option String := none
  label : Option String := none
  device_name : Option String := none
  firmware : Option String := none
  battery : Option Int := none
  battery_state : Option String := none
  wifi_strength : Option Int := none
  deriving Repr, DecidableEq

/-- A validated channel (`ThermoworksChannel` in `models.py`). -/
structure ThermoworksChannel where
  number : String
  value : Int
  units : String
  status : Option String := none
  label : Option String := none
  deriving Repr, DecidableEq

/-- `MissingRequiredAttributeError` from `exceptions.py`: carries the list of
missing attribute names and the name of the target type. -/
structure MissingRequiredAttributeError where
  missing_attributes : List String
  object_type : String
  deriving Repr, DecidableEq

/-- `get_missing_attributes(device, ThermoworksDevice)`: the loop over the
type hints of `ThermoworksDevice`, unrolled. Only `serial` is a
non-`Optional` hint, so it is the only attribute ever tested. -/
def getMissingDeviceAttributes (d : RawDevice) : List String :=
  if d.serial = none then ["serial"] else []

/-- `get_missing_attributes(channel, ThermoworksChannel)`: the loop over the
type hints of `ThermoworksChannel`, unrolled in hint order. The
non-`Optional` hints are `number`, `value`, `units`. -/
def getMissingChannelAttributes (c : RawChannel) : List String :=
  (if c.number = none then ["number"] else []) ++
    (if c.value = none then ["value"] else []) ++
      (if c.units = none then ["units"] else [])

/-- `ThermoworksDevice.from_api_device`: reject the record with a
`MissingRequiredAttributeError` when `has_required_attributes` fails
(for a device that means `serial` is absent or null), otherwise copy the
fields. The source reads `battery_state` into nothing — the constructor call
omits it — so the validated device has `battery_state = none`. -/
def ThermoworksDevice.from_api_device (device : RawDevice) :
    Except MissingRequiredAttributeError ThermoworksDevice :=
  match device.serial with
  | none =>
      .error ⟨getMissingDeviceAttributes device, "ThermoworksDevice"⟩
  | some s =>
      .ok { device_id := device.device_id
            label := device.label
            device_name := device.device_name
            firmware := device.firmware
            serial := s
            battery := device.battery
            wifi_strength := device.wifi_strength }

/-- `ThermoworksChannel.from_api_channel`: reject the record with a
`MissingRequiredAttributeError` listing the missing required attributes when
any of `number`, `value`, `units` is absent or null, otherwise copy the
fields. -/
def ThermoworksChannel.from_api_channel (channel : RawChannel) :
    Except MissingRequiredAttributeError ThermoworksChannel :=
  match channel.number, channel.value, channel.units with
  | some n, some v, some u =>
      .ok { number := n, value := v, units := u
            status := channel.status, label := channel.label }
  | _, _, _ =>
      .error ⟨getMissingChannelAttributes channel, "ThermoworksChannel"⟩

/-- `ThermoworksDevice.get_identifier`: Python
`self.device_id if self.device_id else self.serial` — the condition is
truthiness, so both `None` and the empty string fall back to `serial`. -/
def ThermoworksDevice.get_identifier (d : ThermoworksDevice) : String :=
  match d.device_id with
  | some i => if i = "" then d.serial else i
  | none => d.serial

/-- `DeviceWithBattery.is_protocol_compliant` on a validated device: the
non-`Optional` hints of `DeviceWithBattery` are `serial` (a `String`, always
present on a `ThermoworksDevice`) and `battery`, so compliance reduces to
`battery` being non-null. -/
def DeviceWithBattery.is_protocol_compliant (d : ThermoworksDevice) : Bool :=
  d.battery.isSome

/-- `DeviceWithWifi.is_protocol_compliant` on a validated device: the
non-`Optional` hints are `serial` and `wifi_strength`. -/
def DeviceWithWifi.is_protocol_compliant (d : ThermoworksDevice) : Bool :=
  d.wifi_strength.isSome

/-- Outcome of one `api.get_device_channel` call: a raw record, a
`ResourceNotFoundError`, or any other exception (carrying its text). -/
inductive ChannelResult where
  | ok (raw : RawChannel)
  | notFound
  | failure (msg : String)
  deriving Repr, DecidableEq

/-- The user record returned by `api.get_user`; only `account_id` is read by
the coordinator. -/
structure User where
  account_id : Option String
  deriving Repr, DecidableEq

/-- The authenticated API handle (`ThermoworksCloud` client), modelled by the
responses it would give during one refresh cycle. An `Except.error` models the
call raising an exception with that text. -/
structure Api where
  getUser : Except String User
  getDevices : String → Except String (List RawDevice)
  getChannel : String → Nat → ChannelResult

/-- The channel that iteration `i` of the discovery loop appends, if any:
`some` when the fetch returns a record that passes `from_api_channel`,
`none` when the fetch fails or validation rejects the record. -/
def okChannel (api : Api) (serial : String) (i : Nat) : Option ThermoworksChannel :=
  match api.getChannel serial i with
  | .ok raw => (ThermoworksChannel.from_api_channel raw).toOption
  | _ => none

/-- The `for channel in range(1, 10)` discovery loop of `async_update_data`,
over an explicit list of indices still to visit. First component: the
`device_channels` accumulator (valid channels, in probe order). Second
component: the trace of indices actually probed, in probe order.
`ResourceNotFoundError` breaks out of the loop; a validation error or any
other fetch error continues with the next index. -/
def channelLoop (api : Api) (serial : String) : List Nat → List ThermoworksChannel × List Nat
  | [] => ([], [])
  | i :: rest =>
    match api.getChannel serial i with
    | .notFound => ([], [i])
    | .failure _ =>
        ((channelLoop api serial rest).1, i :: (channelLoop api serial rest).2)
    | .ok raw =>
        match ThermoworksChannel.from_api_channel raw with
        | .ok c => (c :: (channelLoop api serial rest).1, i :: (channelLoop api serial rest).2)
        | .error _ => ((channelLoop api serial rest).1, i :: (channelLoop api serial rest).2)

/-- Channel discovery for one device: probe indices 1 through 9
(`range(1, 10)`). -/
def fetchChannels (api : Api) (serial : String) : List ThermoworksChannel :=
  (channelLoop api serial (List.range' 1 9)).1

/-- Python `dict` assignment `m[k] = v`: replace the existing binding of `k`
in place, or append a new binding at the end. -/
def dictInsert {α : Type} (k : String) (v : α) : List (String × α) → List (String × α)
  | [] => [(k, v)]
  | (k1, v1) :: rest =>
      if k1 = k then (k, v) :: rest else (k1, v1) :: dictInsert k v rest

/-- Python `m.get(k)`: the value of the first (hence, under `dictInsert`,
only) binding of `k`. -/
def dictGet {α : Type} : List (String × α) → String → Option α
  | [], _ => none
  | (k1, v1) :: rest, k => if k1 = k then some v1 else dictGet rest k

/-- `ThermoworksData` from `coordinator.py`: the snapshot one refresh commits.
The `device_channels` dict is modelled as an association list with
`dictInsert` / `dictGet` semantics. -/
structure ThermoworksData where
  devices : List ThermoworksDevice
  device_channels : List (String × List ThermoworksChannel)
  deriving Repr, DecidableEq

/-- The `for api_device in api_devices` loop of `async_update_data`, with the
`devices` and `device_channels_by_device` accumulators explicit. A device
failing `from_api_device` is skipped (`continue`); a surviving device is
appended and its discovered channels are stored under its resolved
identifier. -/
def processDevices (api : Api) :
    List RawDevice → List ThermoworksDevice → List (String × List ThermoworksChannel) →
      List ThermoworksDevice × List (String × List ThermoworksChannel)
  | [], devices, m => (devices, m)
  | raw :: rest, devices, m =>
      match ThermoworksDevice.from_api_device raw with
      | .error _ => processDevices api rest devices m
      | .ok device =>
          processDevices api rest (devices ++ [device])
            (dictInsert device.get_identifier (fetchChannels api device.serial) m)

/-- The coordinator's lazy authentication: `if self.api is None`, call
`build_auth` (whose outcome, success handle or exception text, is `auth`);
otherwise reuse the stored handle. -/
def resolveApi (auth : Except String Api) (api0 : Option Api) : Except String Api :=
  match api0 with
  | some a => .ok a
  | none => auth

/-- The message of the `UpdateFailed` raised by the outer `except` block:
`f"Error communicating with API: {err}"`. -/
def updateFailedMessage (cause : String) : String :=
  "Error communicating with API: " ++ cause

/-- `async_update_data`. Any exception inside the `try` — authentication
failure, user fetch failure, the explicit `UpdateFailed("No account ID found
for user")`, or device-list fetch failure — is caught by the outer `except`
and re-raised as `UpdateFailed` wrapping the cause text. On success the
result carries the (possibly newly built) API handle stored on `self.api`
and the returned `ThermoworksData`. -/
def async_update_data (auth : Except String Api) (api0 : Option Api) :
    Except String (Api × ThermoworksData) :=
  match resolveApi auth api0 with
  | .error e => .error (updateFailedMessage e)
  | .ok api =>
    match api.getUser with
    | .error e => .error (updateFailedMessage e)
    | .ok user =>
      match user.account_id with
      | none => .error (updateFailedMessage "No account ID found for user")
      | some accountId =>
        match api.getDevices accountId with
        | .error e => .error (updateFailedMessage e)
        | .ok rawDevices =>
            let r := processDevices api rawDevices [] []
            .ok (api, { devices := r.1, device_channels := r.2 })

/-- The host `DataUpdateCoordinator` contract for committing a refresh.
Modelled from the spec: on success the returned data replaces the snapshot
wholesale; when `async_update_data` raises `UpdateFailed`, the previously
committed snapshot is retained. (The host framework is an external
collaborator, not code under `src/`.) -/
def commitRefresh (prev : Option ThermoworksData)
    (result : Except String (Api × ThermoworksData)) : Option ThermoworksData :=
  match result with
  | .ok r => some r.2
  | .error _ => prev

/-- The `for device in self.data.devices` scan inside `get_device_by_id`. -/
def findDevice (device_id : String) : List ThermoworksDevice → Option ThermoworksDevice
  | [] => none
  | d :: rest => if d.get_identifier = device_id then some d else findDevice device_id rest

/-- `get_device_by_id`: linear scan of `self.data.devices` for the first
device whose resolved identifier matches; `None` when there is none. -/
def get_device_by_id (data : ThermoworksData) (device_id : String) :
    Option ThermoworksDevice :=
  findDevice device_id data.devices

/-- The scan over one device's channel list inside `get_device_channel_by_id`. -/
def findChannel (channel_id : String) : List ThermoworksChannel → Option ThermoworksChannel
  | [] => none
  | c :: rest => if c.number = channel_id then some c else findChannel channel_id rest

/-- `get_device_channel_by_id`: scan
`self.data.device_channels.get(device_id, [])` for the first channel whose
`number` matches; `None` when there is none, also when `device_id` has no
entry in the map. -/
def get_device_channel_by_id (data : ThermoworksData) (device_id channel_id : String) :
    Option ThermoworksChannel :=
  findChannel channel_id ((dictGet data.device_channels device_id).getD [])

/-- A sensor entity created by `async_setup_entry` in `sensor.py`, identified
by its kind and the data it is keyed on. -/
inductive Entity where
  | battery (deviceId : String)
  | signal (deviceId : String)
  | humidity (deviceId : String) (channelNumber : String)
  | temperature (deviceId : String) (channelNumber : String)
  deriving Repr, DecidableEq

/-- The per-channel branch of `async_setup_entry`: `units == "H"` yields a
`HumiditySensor`, `units in ("F", "C")` yields a `TemperatureSensor`, anything
else yields no entity (the `else` branch logs one warning). -/
def channelEntity (deviceId : String) (c : ThermoworksChannel) : Option Entity :=
  if c.units = "H" then some (.humidity deviceId c.number)
  else if c.units = "F" ∨ c.units = "C" then some (.temperature deviceId c.number)
  else none

/-- One iteration of the `for device in coordinator.data.devices` loop of
`async_setup_entry`: a `BatterySensor` iff `DeviceWithBattery` compliance, a
`SignalSensor` iff `DeviceWithWifi` compliance, then one entity per supported
channel, in channel order. The second component counts the warnings the
`else` branch logs, one per channel with an unsupported unit code. -/
def entitiesForDevice (device : ThermoworksDevice) (channels : List ThermoworksChannel) :
    List Entity × Nat :=
  ((if DeviceWithBattery.is_protocol_compliant device then
      [Entity.battery device.get_identifier] else []) ++
    (if DeviceWithWifi.is_protocol_compliant device then
      [Entity.signal device.get_identifier] else []) ++
    channels.filterMap (channelEntity device.get_identifier),
   (channels.filter (fun c => (channelEntity device.get_identifier c).isNone)).length)

/-- `async_setup_entry`: the full entity-setup pass over the current
snapshot. Each device contributes the entities of `entitiesForDevice`, with
its channel list read as `coordinator.data.device_channels.get(identifier, [])`.
Second component: total warnings logged for unsupported unit codes. -/
def async_setup_entry (data : ThermoworksData) : List Entity × Nat :=
  go data.devices
where
  go : List ThermoworksDevice → List Entity × Nat
    | [] => ([], 0)
    | d :: rest =>
        let here := entitiesForDevice d ((dictGet data.device_channels d.get_identifier).getD [])
        let more := go rest
        (here.1 ++ more.1, here.2 + more.2)

/-! Concrete records and API behaviours used to instantiate the theorems. -/

/-- A raw channel record for probe index `i` with all required fields set. -/
def rawChanAt (i : Nat) : RawChannel :=
  { number := some (toString i), value := some 70, units := some "F"
    status := some "NORMAL", label := none }

/-- A raw device record with all fields set. -/
def rawDeviceGood : RawDevice :=
  { serial := some "SER1", device_id := some "D1", label := some "Grill"
    device_name := some "RFX", firmware := some "1.0", battery := some 55
    battery_state := some "normal", wifi_strength := some (-60) }

/-- A raw device record whose only required field, `serial`, is null. -/
def rawDeviceBad : RawDevice :=
  { serial := none, device_id := some "D2", label := none, device_name := none
    firmware := none, battery := none, battery_state := none, wifi_strength := none }

/-- API behaviour with valid channels at indices 1..3 and not-found at 4
(indices past 4 would fail loudly if ever probed). -/
def apiChannels123 : Api :=
  { getUser := .ok { account_id := some "acct" }
    getDevices := fun _ => .ok [rawDeviceGood]
    getChannel := fun _ i =>
      if i ≤ 3 then .ok (rawChanAt i)
      else if i = 4 then .notFound
      else .failure "probed beyond the not-found index" }

/-- API behaviour with a generic error at index 2 and valid channels at every
other index in 1..9 (no not-found anywhere). -/
def apiErrorAt2 : Api :=
  { getUser := .ok { account_id := some "acct" }
    getDevices := fun _ => .ok [rawDeviceGood]
    getChannel := fun _ i => if i = 2 then .failure "boom" else .ok (rawChanAt i) }

/-- API behaviour whose device-list fetch raises. -/
def apiDevicesDown : Api :=
  { getUser := .ok { account_id := some "acct" }
    getDevices := fun _ => .error "device list down"
    getChannel := fun _ _ => .notFound }

/-- API behaviour returning one valid and one invalid device record, with
channels as in `apiChannels123`. -/
def apiMixedDevices : Api :=
  { getUser := .ok { account_id := some "acct" }
    getDevices := fun _ => .ok [rawDeviceBad, rawDeviceGood]
    getChannel := apiChannels123.getChannel }

/-- API behaviour returning only an invalid device record. -/
def apiOnlyBadDevice : Api :=
  { getUser := .ok { account_id := some "acct" }
    getDevices := fun _ => .ok [rawDeviceBad]
    getChannel := fun _ _ => .notFound }

/-- A validated device with battery and wifi readings present. -/
def deviceFull : ThermoworksDevice :=
  { serial := "SER1", device_id := some "D1", label := some "Grill"
    battery := some 55, wifi_strength := some (-60) }

/-- A validated device with neither a battery nor a wifi reading. -/
def deviceBare : ThermoworksDevice :=
  { serial := "SER2", device_id := some "D2" }

/-- A validated device whose `device_id` is the empty string. -/
def deviceEmptyId : ThermoworksDevice :=
  { serial := "SER123", device_id := some "" }

/-- A Fahrenheit channel. -/
def chanF : ThermoworksChannel := { number := "1", value := 70, units := "F" }

/-- A humidity channel. -/
def chanH : ThermoworksChannel := { number := "2", value := 40, units := "H" }

/-- A channel with an unsupported unit code. -/
def chanX : ThermoworksChannel := { number := "3", value := 9, units := "K" }

/-- A concrete committed snapshot. -/
def snapshotW : ThermoworksData :=
  { devices := [deviceFull], device_channels := [("D1", [chanF, chanH])] }

/-- A validated device with no device-id at all. -/
def deviceSerialOnly : ThermoworksDevice := { serial := "SEROnly" }

/-- `rawDeviceGood` after validation (`battery_state` is dropped by
`from_api_device`). -/
def parsedDeviceGood : ThermoworksDevice :=
  { serial := "SER1", device_id := some "D1", label := some "Grill"
    device_name := some "RFX", firmware := some "1.0", battery := some 55
    battery_state := none, wifi_strength := some (-60) }

/-- `rawChanAt i` after validation. -/
def parsedChanAt (i : Nat) : ThermoworksChannel :=
  { number := toString i, value := 70, units := "F", status := some "NORMAL", label := none }

/-- The snapshot a refresh against `apiMixedDevices` commits. -/
def snapshotMixed : ThermoworksData :=
  { devices := [parsedDeviceGood]
    device_channels := [("D1", [parsedChanAt 1, parsedChanAt 2, parsedChanAt 3])] }

/-! Helper lemmas about the discovery loop. -/

theorem channelLoop_probed_le (api : Api) (serial : String) (l : List Nat) :
    ((channelLoop api serial l).2).length ≤ l.length := by
  induction l with
  | nil => simp [channelLoop]
  | cons i rest ih =>
      simp only [channelLoop]
      split
      · simp
      · simp only [List.length_cons]; omega
      · split <;> (simp only [List.length_cons]; omega)

theorem channelLoop_channels_le (api : Api) (serial : String) (l : List Nat) :
    ((channelLoop api serial l).1).length ≤ l.length := by
  induction l with
  | nil => simp [channelLoop]
  | cons i rest ih =>
      simp only [channelLoop]
      split
      · simp
      · simp only [List.length_cons]; omega
      · split <;> (simp only [List.length_cons]; omega)

theorem channelLoop_no_notFound (api : Api) (serial : String) (l : List Nat)
    (h : ∀ i ∈ l, api.getChannel serial i ≠ .notFound) :
    channelLoop api serial l = (l.filterMap (okChannel api serial), l) := by
  induction l with
  | nil => simp [channelLoop]
  | cons i rest ih =>
      have hi := h i (by simp)
      have hrest : ∀ j ∈ rest, api.getChannel serial j ≠ .notFound :=
        fun j hj => h j (by simp [hj])
      simp only [channelLoop, List.filterMap_cons]
      split
      · next hc => exact absurd hc hi
      · next msg hc => simp [ih hrest, okChannel, hc]
      · next raw hc =>
          split
          · next c hr => simp [ih hrest, okChannel, hc, hr, Except.toOption]
          · next err hr => simp [ih hrest, okChannel, hc, hr, Except.toOption]

theorem channelLoop_split_notFound (api : Api) (serial : String) (l1 l2 : List Nat) (k : Nat)
    (h1 : ∀ i ∈ l1, api.getChannel serial i ≠ .notFound)
    (hk : api.getChannel serial k = .notFound) :
    channelLoop api serial (l1 ++ k :: l2) =
      (l1.filterMap (okChannel api serial), l1 ++ [k]) := by
  induction l1 with
  | nil =>
      simp only [List.nil_append, channelLoop, hk, List.filterMap_nil]
  | cons i rest ih =>
      have hi := h1 i (by simp)
      have hrest : ∀ j ∈ rest, api.getChannel serial j ≠ .notFound :=
        fun j hj => h1 j (by simp [hj])
      simp only [List.cons_append, channelLoop, List.filterMap_cons]
      split
      · next hc => exact absurd hc hi
      · next msg hc => simp [ih hrest, okChannel, hc]
      · next raw hc =>
          split
          · next c hr => simp [ih hrest, okChannel, hc, hr, Except.toOption]
          · next err hr => simp [ih hrest, okChannel, hc, hr, Except.toOption]

/-- C1: channel discovery probes indices 1, 2, 3, … in strictly increasing
order; at the first not-found index `k` it stops — the probed trace is
exactly `[1, …, k]`, so no index beyond `k` is ever probed — and returns
exactly the channels successfully fetched and validated at indices below `k`,
in ascending index order. -/
theorem channel_discovery_stops_at_first_notFound (api : Api) (serial : String) (k : Nat)
    (hk1 : 1 ≤ k) (hk9 : k ≤ 9)
    (hnf : api.getChannel serial k = .notFound)
    (hbefore : ∀ i ∈ List.range' 1 (k - 1), api.getChannel serial i ≠ .notFound) :
    (channelLoop api serial (List.range' 1 9)).2 = List.range' 1 k ∧
    (channelLoop api serial (List.range' 1 9)).1 =
      (List.range' 1 (k - 1)).filterMap (okChannel api serial) := by
  have hsplit : List.range' 1 9 = List.range' 1 (k - 1) ++ k :: List.range' (k + 1) (9 - k) := by
    interval_cases k <;> rfl
  rw [hsplit, channelLoop_split_notFound api serial _ _ k hbefore hnf]
  refine ⟨?_, rfl⟩
  interval_cases k <;> rfl

/-- C1 witness: with valid channels at indices 1, 2, 3 and not-found at 4,
exactly the three channels below index 4 are returned and the probed trace is
`[1, 2, 3, 4]`. -/
theorem channel_discovery_stops_at_first_notFound_witness :
    (channelLoop apiChannels123 "SER1" (List.range' 1 9)).2 = List.range' 1 4 ∧
    (channelLoop apiChannels123 "SER1" (List.range' 1 9)).1 =
      (List.range' 1 (4 - 1)).filterMap (okChannel apiChannels123 "SER1") :=
  channel_discovery_stops_at_first_notFound apiChannels123 "SER1" 4 (by decide) (by decide)
    (by decide) (by decide)

/-- C2: a generic (non-not-found) error at index `i` does not stop discovery:
when no index in 1..9 reports not-found, every index 1..9 is probed, the
result is exactly the valid channels over indices 1..9 — index `i`
contributing none, i.e. skipped — and, for any API behaviour at all, the
probed trace never exceeds the index list, hence at most 9 probes. -/
theorem channel_discovery_skips_generic_errors (api : Api) (serial : String) (i : Nat)
    (e : String) (hi1 : 1 ≤ i) (hi9 : i ≤ 9)
    (herr : api.getChannel serial i = .failure e)
    (hnf : ∀ j ∈ List.range' 1 9, api.getChannel serial j ≠ .notFound) :
    (channelLoop api serial (List.range' 1 9)).2 = List.range' 1 9 ∧
    (channelLoop api serial (List.range' 1 9)).1 =
      (List.range' 1 9).filterMap (okChannel api serial) ∧
    okChannel api serial i = none ∧
    ∀ (b : Api) (s : String) (l : List Nat), ((channelLoop b s l).2).length ≤ l.length := by
  rw [channelLoop_no_notFound api serial _ hnf]
  exact ⟨rfl, rfl, by simp [okChannel, herr], channelLoop_probed_le⟩

/-- C2 witness: a generic error at index 2 with valid channels everywhere
else in 1..9 still probes all of 1..9 and skips only index 2. -/
theorem channel_discovery_skips_generic_errors_witness :
    (channelLoop apiErrorAt2 "SER1" (List.range' 1 9)).2 = List.range' 1 9 ∧
    (channelLoop apiErrorAt2 "SER1" (List.range' 1 9)).1 =
      (List.range' 1 9).filterMap (okChannel apiErrorAt2 "SER1") ∧
    okChannel apiErrorAt2 "SER1" 2 = none ∧
    ∀ (b : Api) (s : String) (l : List Nat), ((channelLoop b s l).2).length ≤ l.length :=
  channel_discovery_skips_generic_errors apiErrorAt2 "SER1" 2 "boom" (by decide) (by decide)
    (by decide) (by decide)

/-- C3: when authentication, the user fetch, or the device-list fetch fails,
`async_update_data` raises `UpdateFailed` whose message extends the
underlying cause text, and committing the failed cycle leaves the previously
committed snapshot unchanged. -/
theorem fatal_failure_aborts_cycle (auth : Except String Api) (api0 : Option Api)
    (prev : Option ThermoworksData) (e : String)
    (h : (api0 = none ∧ auth = .error e) ∨
         (∃ api, resolveApi auth api0 = .ok api ∧ api.getUser = .error e) ∨
         (∃ api user acct, resolveApi auth api0 = .ok api ∧ api.getUser = .ok user ∧
            user.account_id = some acct ∧ api.getDevices acct = .error e)) :
    async_update_data auth api0 = .error (updateFailedMessage e) ∧
    (∃ p : String, updateFailedMessage e = p ++ e) ∧
    commitRefresh prev (async_update_data auth api0) = prev := by
  have hmain : async_update_data auth api0 = .error (updateFailedMessage e) := by
    rcases h with ⟨h0, ha⟩ | ⟨api, hres, hu⟩ | ⟨api, user, acct, hres, hu, hacct, hd⟩
    · subst h0
      simp [async_update_data, resolveApi, ha]
    · simp [async_update_data, hres, hu]
    · simp [async_update_data, hres, hu, hacct, hd]
  exact ⟨hmain, ⟨"Error communicating with API: ", rfl⟩, by rw [hmain]; rfl⟩

/-- C3 witness: a device-list fetch failure aborts the cycle with the cause
text in the message and retains the prior snapshot. -/
theorem fatal_failure_aborts_cycle_witness :
    async_update_data (.error "unused") (some apiDevicesDown) =
      .error (updateFailedMessage "device list down") ∧
    (∃ p : String, updateFailedMessage "device list down" = p ++ "device list down") ∧
    commitRefresh (some snapshotW) (async_update_data (.error "unused") (some apiDevicesDown)) =
      some snapshotW :=
  fatal_failure_aborts_cycle (.error "unused") (some apiDevicesDown) (some snapshotW)
    "device list down"
    (Or.inr (Or.inr ⟨apiDevicesDown, { account_id := some "acct" }, "acct",
      rfl, rfl, rfl, rfl⟩))

/-- A rejected raw device record is simply dropped by the device loop: the
batch goes on exactly as if the record were absent. -/
theorem processDevices_skip_error (api : Api) (raws1 raws2 : List RawDevice)
    (raw : RawDevice) (ds : List ThermoworksDevice)
    (m : List (String × List ThermoworksChannel)) (err : MissingRequiredAttributeError)
    (h : ThermoworksDevice.from_api_device raw = .error err) :
    processDevices api (raws1 ++ raw :: raws2) ds m =
      processDevices api (raws1 ++ raws2) ds m := by
  induction raws1 generalizing ds m with
  | nil => simp [processDevices, h]
  | cons a t ih =>
      cases hfa : ThermoworksDevice.from_api_device a with
      | error e2 =>
          simp only [List.cons_append, processDevices, hfa]
          exact ih _ _
      | ok d =>
          simp only [List.cons_append, processDevices, hfa]
          exact ih _ _

/-- C4: a raw device record is validated iff its only required field,
`serial`, is present and non-null, and a raw channel record iff `number`,
`value` and `units` all are; a rejected record's error lists exactly the set
of missing required field names; and a rejected device record never aborts
its batch — the remaining records are processed exactly as without it. -/
theorem normalization_validates_iff_required_fields_present :
    (∀ raw : RawDevice,
      ((∃ d, ThermoworksDevice.from_api_device raw = .ok d) ↔ raw.serial ≠ none) ∧
      (∀ err, ThermoworksDevice.from_api_device raw = .error err →
        ∀ a, a ∈ err.missing_attributes ↔ (a = "serial" ∧ raw.serial = none))) ∧
    (∀ raw : RawChannel,
      ((∃ c, ThermoworksChannel.from_api_channel raw = .ok c) ↔
        (raw.number ≠ none ∧ raw.value ≠ none ∧ raw.units ≠ none)) ∧
      (∀ err, ThermoworksChannel.from_api_channel raw = .error err →
        ∀ a, a ∈ err.missing_attributes ↔
          ((a = "number" ∧ raw.number = none) ∨ (a = "value" ∧ raw.value = none) ∨
            (a = "units" ∧ raw.units = none)))) ∧
    (∀ (api : Api) (raws1 raws2 : List RawDevice) (raw : RawDevice)
        (ds : List ThermoworksDevice) (m : List (String × List ThermoworksChannel))
        (err : MissingRequiredAttributeError),
      ThermoworksDevice.from_api_device raw = .error err →
      processDevices api (raws1 ++ raw :: raws2) ds m =
        processDevices api (raws1 ++ raws2) ds m) := by
  refine ⟨fun raw => ⟨?_, ?_⟩, fun raw => ⟨?_, ?_⟩, processDevices_skip_error⟩
  · cases hs : raw.serial <;> simp [ThermoworksDevice.from_api_device, hs]
  · intro err herr a
    cases hs : raw.serial with
    | none =>
        rw [ThermoworksDevice.from_api_device] at herr
        simp only [hs] at herr
        cases herr
        simp [getMissingDeviceAttributes, hs]
    | some s =>
        rw [ThermoworksDevice.from_api_device] at herr
        simp [hs] at herr
  · cases hn : raw.number <;> cases hv : raw.value <;> cases hu : raw.units <;>
      simp [ThermoworksChannel.from_api_channel, hn, hv, hu]
  · intro err herr a
    cases hn : raw.number <;> cases hv : raw.value <;> cases hu : raw.units <;>
      rw [ThermoworksChannel.from_api_channel] at herr <;>
      simp only [hn, hv, hu] at herr <;>
      first
        | (cases herr; simp [getMissingChannelAttributes, hn, hv, hu])
        | cases herr

/-- C4 witness: a device record with a null `serial` is rejected and its
sibling in the same batch is processed exactly as if the bad record were
absent. -/
theorem normalization_validates_iff_required_fields_present_witness :
    processDevices apiMixedDevices [rawDeviceBad, rawDeviceGood] [] [] =
      processDevices apiMixedDevices [rawDeviceGood] [] [] :=
  normalization_validates_iff_required_fields_present.2.2 apiMixedDevices [] [rawDeviceGood]
    rawDeviceBad [] [] { missing_attributes := ["serial"], object_type := "ThermoworksDevice" }
    rfl

/-- The per-channel branch never creates a battery entity. -/
theorem channelEntity_ne_battery (dv id : String) (c : ThermoworksChannel) :
    channelEntity dv c ≠ some (Entity.battery id) := by
  simp only [channelEntity]
  split_ifs <;> simp

/-- The per-channel branch never creates a signal entity. -/
theorem channelEntity_ne_signal (dv id : String) (c : ThermoworksChannel) :
    channelEntity dv c ≠ some (Entity.signal id) := by
  simp only [channelEntity]
  split_ifs <;> simp

/-- C5: on an entity-setup pass, a battery sensor is created for a device iff
its battery field is non-null and a signal sensor iff its wifi-strength field
is non-null; a channel yields a humidity sensor iff its unit code is "H", a
temperature sensor iff it is "F" or "C", and no sensor otherwise; exactly one
warning is logged per channel with an unsupported unit code. -/
theorem sensor_classification (device : ThermoworksDevice) (channels : List ThermoworksChannel) :
    (Entity.battery device.get_identifier ∈ (entitiesForDevice device channels).1 ↔
      device.battery ≠ none) ∧
    (Entity.signal device.get_identifier ∈ (entitiesForDevice device channels).1 ↔
      device.wifi_strength ≠ none) ∧
    (∀ (id : String) (c : ThermoworksChannel),
      (channelEntity id c = some (.humidity id c.number) ↔ c.units = "H") ∧
      (channelEntity id c = some (.temperature id c.number) ↔
        (c.units = "F" ∨ c.units = "C")) ∧
      (channelEntity id c = none ↔
        (c.units ≠ "H" ∧ c.units ≠ "F" ∧ c.units ≠ "C"))) ∧
    (entitiesForDevice device channels).2 =
      (channels.filter
        (fun c => decide (c.units ≠ "H" ∧ c.units ≠ "F" ∧ c.units ≠ "C"))).length := by
  refine ⟨?_, ?_, ?_, ?_⟩
  · rcases hb : device.battery with _ | b <;>
      rcases hw : device.wifi_strength with _ | w <;>
        simp [entitiesForDevice, DeviceWithBattery.is_protocol_compliant,
          DeviceWithWifi.is_protocol_compliant, hb, hw, List.mem_filterMap,
          channelEntity_ne_battery]
  · rcases hb : device.battery with _ | b <;>
      rcases hw : device.wifi_strength with _ | w <;>
        simp [entitiesForDevice, DeviceWithBattery.is_protocol_compliant,
          DeviceWithWifi.is_protocol_compliant, hb, hw, List.mem_filterMap,
          channelEntity_ne_signal]
  · intro id c
    refine ⟨?_, ?_, ?_⟩ <;>
      (simp only [channelEntity]; split_ifs with h1 h2) <;> simp [h1] <;> tauto
  · have hpt : ∀ c ∈ channels, (channelEntity device.get_identifier c).isNone =
        decide (c.units ≠ "H" ∧ c.units ≠ "F" ∧ c.units ≠ "C") := by
      intro c _
      simp only [channelEntity]
      split_ifs with h1 h2 <;> simp [h1] <;> tauto
    simp only [entitiesForDevice]
    rw [List.filter_congr hpt]

/-- C5 witness: a device with battery 55 and wifi -60 and channels with units
"F", "H", "K" yields a battery sensor, a signal sensor, one temperature and
one humidity sensor, and one warning for the unsupported unit. -/
theorem sensor_classification_witness :
    Entity.battery "D1" ∈ (entitiesForDevice deviceFull [chanF, chanH, chanX]).1 :=
  (sensor_classification deviceFull [chanF, chanH, chanX]).1.mpr (by decide)

/-- `findDevice` only ever returns a matching member of the list. -/
theorem findDevice_some (device_id : String) (l : List ThermoworksDevice)
    (d : ThermoworksDevice) (h : findDevice device_id l = some d) :
    d ∈ l ∧ d.get_identifier = device_id := by
  induction l with
  | nil => simp [findDevice] at h
  | cons a t ih =>
      rw [findDevice] at h
      split_ifs at h with hid
      · cases h
        exact ⟨by simp, hid⟩
      · rcases ih h with ⟨hm, he⟩
        exact ⟨by simp [hm], he⟩

/-- `findDevice` returns `None` exactly when no member matches. -/
theorem findDevice_none (device_id : String) (l : List ThermoworksDevice) :
    findDevice device_id l = none ↔ ∀ d ∈ l, d.get_identifier ≠ device_id := by
  induction l with
  | nil => simp [findDevice]
  | cons a t ih =>
      rw [findDevice]
      split_ifs with hid <;> simp [hid, ih]

/-- `findChannel` only ever returns a matching member of the list. -/
theorem findChannel_some (channel_id : String) (l : List ThermoworksChannel)
    (c : ThermoworksChannel) (h : findChannel channel_id l = some c) :
    c ∈ l ∧ c.number = channel_id := by
  induction l with
  | nil => simp [findChannel] at h
  | cons a t ih =>
      rw [findChannel] at h
      split_ifs at h with hid
      · cases h
        exact ⟨by simp, hid⟩
      · rcases ih h with ⟨hm, he⟩
        exact ⟨by simp [hm], he⟩

/-- `findChannel` returns `None` exactly when no member matches. -/
theorem findChannel_none (channel_id : String) (l : List ThermoworksChannel) :
    findChannel channel_id l = none ↔ ∀ c ∈ l, c.number ≠ channel_id := by
  induction l with
  | nil => simp [findChannel]
  | cons a t ih =>
      rw [findChannel]
      split_ifs with hid <;> simp [hid, ih]

/-- C6: the lookup accessors are total functions on the snapshot: each
returns the matching record when one exists and `None` otherwise, including
a `None` channel result for a device identifier with no entry in the channel
map; being pure functions of the snapshot they cannot throw or modify it. -/
theorem lookup_accessors_total (data : ThermoworksData) (device_id channel_id : String) :
    (∀ d, get_device_by_id data device_id = some d →
      d ∈ data.devices ∧ d.get_identifier = device_id) ∧
    (get_device_by_id data device_id = none ↔
      ∀ d ∈ data.devices, d.get_identifier ≠ device_id) ∧
    (∀ c, get_device_channel_by_id data device_id channel_id = some c →
      c ∈ (dictGet data.device_channels device_id).getD [] ∧ c.number = channel_id) ∧
    (dictGet data.device_channels device_id = none →
      get_device_channel_by_id data device_id channel_id = none) ∧
    (get_device_channel_by_id data device_id channel_id = none ↔
      ∀ c ∈ (dictGet data.device_channels device_id).getD [], c.number ≠ channel_id) := by
  refine ⟨?_, ?_, ?_, ?_, ?_⟩
  · exact fun d h => findDevice_some device_id data.devices d h
  · exact findDevice_none device_id data.devices
  · exact fun c h => findChannel_some channel_id _ c h
  · intro h
    simp [get_device_channel_by_id, h, findChannel]
  · exact findChannel_none channel_id _

/-- C6 witness: an unknown device identifier yields `None` from both
accessors, including through the missing channel-map entry. -/
theorem lookup_accessors_total_witness :
    get_device_by_id snapshotW "NOPE" = none ∧
    get_device_channel_by_id snapshotW "NOPE" "1" = none :=
  ⟨(lookup_accessors_total snapshotW "NOPE" "1").2.1.mpr (by decide),
   (lookup_accessors_total snapshotW "NOPE" "1").2.2.2.1 (by decide)⟩

/-- A batch in which every raw device record fails validation leaves the
loop accumulators untouched. -/
theorem processDevices_all_error (api : Api) (raws : List RawDevice)
    (ds : List ThermoworksDevice) (m : List (String × List ThermoworksChannel))
    (h : ∀ raw ∈ raws, (ThermoworksDevice.from_api_device raw).isOk = false) :
    processDevices api raws ds m = (ds, m) := by
  induction raws with
  | nil => simp [processDevices]
  | cons a t ih =>
      have ha := h a (by simp)
      cases hfa : ThermoworksDevice.from_api_device a with
      | ok d => rw [hfa] at ha; simp [Except.isOk, Except.toBool] at ha
      | error err =>
          simp only [processDevices, hfa]
          exact ih (fun r hr => h r (by simp [hr]))

/-- C7: a refresh that finds zero usable devices — because the device list is
empty or every record fails validation — still succeeds, committing the empty
snapshot. -/
theorem zero_usable_devices_still_succeeds (auth : Except String Api) (api0 : Option Api)
    (api : Api) (user : User) (acct : String) (raws : List RawDevice)
    (hres : resolveApi auth api0 = .ok api)
    (hu : api.getUser = .ok user)
    (hacct : user.account_id = some acct)
    (hd : api.getDevices acct = .ok raws)
    (hall : ∀ raw ∈ raws, (ThermoworksDevice.from_api_device raw).isOk = false) :
    async_update_data auth api0 = .ok (api, { devices := [], device_channels := [] }) := by
  simp [async_update_data, hres, hu, hacct, hd, processDevices_all_error api raws [] [] hall]

/-- C7 witness: an account whose single device record is invalid yields a
successful cycle with an empty snapshot. -/
theorem zero_usable_devices_still_succeeds_witness :
    async_update_data (.ok apiOnlyBadDevice) none =
      .ok (apiOnlyBadDevice, { devices := [], device_channels := [] }) :=
  zero_usable_devices_still_succeeds (.ok apiOnlyBadDevice) none apiOnlyBadDevice
    { account_id := some "acct" } "acct" [rawDeviceBad] rfl rfl rfl rfl (by decide)

/-- C8 counterexample: `deviceEmptyId` carries both a device-id (the empty
string) and a serial, yet `get_identifier` resolves to the serial, not to the
device-id it carries. -/
theorem identifier_resolution_counterexample :
    deviceEmptyId.device_id = some "" ∧ deviceEmptyId.serial = "SER123" ∧
    deviceEmptyId.get_identifier = "SER123" ∧ deviceEmptyId.get_identifier ≠ "" := by
  refine ⟨rfl, rfl, rfl, ?_⟩
  decide

/-- C8 (amended): a device carrying a non-empty device-id resolves its
identifier to the device-id; a device with no device-id resolves to the
serial. -/
theorem identifier_resolution (d : ThermoworksDevice) :
    (∀ i, d.device_id = some i → i ≠ "" → d.get_identifier = i) ∧
    (d.device_id = none → d.get_identifier = d.serial) := by
  constructor
  · intro i hi hne
    simp [ThermoworksDevice.get_identifier, hi, hne]
  · intro h
    simp [ThermoworksDevice.get_identifier, h]

/-- C8 witness: a device with device-id "D1" resolves to "D1"; a device with
no device-id resolves to its serial. -/
theorem identifier_resolution_witness :
    deviceFull.get_identifier = "D1" ∧
    deviceSerialOnly.get_identifier = deviceSerialOnly.serial :=
  ⟨(identifier_resolution deviceFull).1 "D1" rfl (by decide),
   (identifier_resolution deviceSerialOnly).2 rfl⟩

/-- C9: a present but empty-string device-id behaves like a missing one —
`get_identifier` tests truthiness, so it falls back to the serial. -/
theorem empty_device_id_falls_back_to_serial (d : ThermoworksDevice)
    (h : d.device_id = some "") : d.get_identifier = d.serial := by
  simp [ThermoworksDevice.get_identifier, h]

/-- C9 witness: the fallback observed on a concrete device whose device-id is
the empty string. -/
theorem empty_device_id_falls_back_to_serial_witness :
    deviceEmptyId.get_identifier = deviceEmptyId.serial :=
  empty_device_id_falls_back_to_serial deviceEmptyId rfl

/-- Lookup after a dict assignment: the assigned key reads the new value,
every other key is unaffected. -/
theorem dictGet_dictInsert {α : Type} (k q : String) (v : α) (m : List (String × α)) :
    dictGet (dictInsert k v m) q = if k = q then some v else dictGet m q := by
  induction m with
  | nil => simp [dictInsert, dictGet]
  | cons p rest ih =>
      obtain ⟨k1, v1⟩ := p
      by_cases h1 : k1 = k
      · subst h1
        by_cases h2 : k1 = q <;> simp [dictInsert, dictGet, h2]
      · by_cases h2 : k1 = q
        · subst h2
          have hk : ¬ k = k1 := fun he => h1 he.symm
          simp [dictInsert, dictGet, h1, hk]
        · simp [dictInsert, dictGet, h1, h2, ih]

/-- Discovery never returns more than 9 channels per device. -/
theorem fetchChannels_le_nine (api : Api) (serial : String) :
    (fetchChannels api serial).length ≤ 9 := by
  have h := channelLoop_channels_le api serial (List.range' 1 9)
  simpa [fetchChannels] using h

/-- The device-loop invariant: the channel map's keys are exactly the
resolved identifiers of the devices collected so far, and every stored
channel list has at most 9 entries. -/
theorem processDevices_invariant (api : Api) (raws : List RawDevice)
    (ds : List ThermoworksDevice) (m : List (String × List ThermoworksChannel))
    (hkeys : ∀ k, (dictGet m k).isSome = true ↔ ∃ d ∈ ds, d.get_identifier = k)
    (hlen : ∀ k cs, dictGet m k = some cs → cs.length ≤ 9) :
    (∀ k, (dictGet (processDevices api raws ds m).2 k).isSome = true ↔
      ∃ d ∈ (processDevices api raws ds m).1, d.get_identifier = k) ∧
    (∀ k cs, dictGet (processDevices api raws ds m).2 k = some cs → cs.length ≤ 9) := by
  induction raws generalizing ds m with
  | nil =>
      simp only [processDevices]
      exact ⟨hkeys, hlen⟩
  | cons raw rest ih =>
      cases hfa : ThermoworksDevice.from_api_device raw with
      | error err =>
          simp only [processDevices, hfa]
          exact ih ds m hkeys hlen
      | ok device =>
          simp only [processDevices, hfa]
          apply ih
          · intro k
            rw [dictGet_dictInsert]
            by_cases hk : device.get_identifier = k
            · simp only [if_pos hk, Option.isSome_some, true_iff]
              exact ⟨device, by simp, hk⟩
            · rw [if_neg hk, hkeys k]
              constructor
              · rintro ⟨d, hd, hdk⟩
                exact ⟨d, by simp [hd], hdk⟩
              · rintro ⟨d, hd, hdk⟩
                rcases List.mem_append.mp hd with hd | hd
                · exact ⟨d, hd, hdk⟩
                · rw [List.mem_singleton.mp hd] at hdk
                  exact absurd hdk hk
          · intro k cs
            rw [dictGet_dictInsert]
            by_cases hk : device.get_identifier = k
            · rw [if_pos hk]
              intro h
              cases h
              exact fetchChannels_le_nine api device.serial
            · rw [if_neg hk]
              exact hlen k cs

/-- C10: every snapshot committed by a successful refresh has a channel map
whose key set is exactly the set of resolved identifiers of its device list
(every surviving device has an entry, and no other keys exist), and every
per-device channel list holds at most 9 channels. -/
theorem snapshot_invariant (auth : Except String Api) (api0 : Option Api)
    (api : Api) (data : ThermoworksData)
    (h : async_update_data auth api0 = .ok (api, data)) :
    (∀ k, (dictGet data.device_channels k).isSome = true ↔
      ∃ d ∈ data.devices, d.get_identifier = k) ∧
    (∀ k cs, dictGet data.device_channels k = some cs → cs.length ≤ 9) := by
  cases hres : resolveApi auth api0 with
  | error e => simp [async_update_data, hres] at h
  | ok api2 =>
    cases hu : api2.getUser with
    | error e => simp [async_update_data, hres, hu] at h
    | ok user =>
      cases hacct : user.account_id with
      | none => simp [async_update_data, hres, hu, hacct] at h
      | some acct =>
        cases hd : api2.getDevices acct with
        | error e => simp [async_update_data, hres, hu, hacct, hd] at h
        | ok raws =>
          simp only [async_update_data, hres, hu, hacct, hd, Except.ok.injEq,
            Prod.mk.injEq] at h
          obtain ⟨hapi, hdata⟩ := h
          have hbase :
              (∀ k, (dictGet (processDevices api2 raws [] []).2 k).isSome = true ↔
                ∃ d ∈ (processDevices api2 raws [] []).1, d.get_identifier = k) ∧
              (∀ k cs, dictGet (processDevices api2 raws [] []).2 k = some cs →
                cs.length ≤ 9) :=
            processDevices_invariant api2 raws [] [] (by simp [dictGet]) (by simp [dictGet])
          rw [← hdata]
          exact hbase

/-- C10 witness: the snapshot committed for `apiMixedDevices` has a channel
entry for key "D1" exactly because a surviving device resolves to "D1". -/
theorem snapshot_invariant_witness :
    (dictGet snapshotMixed.device_channels "D1").isSome = true ↔
      ∃ d ∈ snapshotMixed.devices, d.get_identifier = "D1" :=
  (snapshot_invariant (.ok apiMixedDevices) none apiMixedDevices snapshotMixed rfl).1 "D1"

end ThermoworksCloud
